import Mathlib

/-
Verification development for the fullstackpro-python repository.

The file shallowly embeds the authentication/authorization slice
(src/app/auth.py), the cache-aside accessor (src/app/cache.py), the
settings object (src/app/config.py) and the push job handler
(src/app/worker_main.py), and proves/refutes the spec's claims about them.

Modelling conventions:
- Python JSON values are the inductive `Json` below.  Integer numbers are
  exact; a fractional/exponent number (a Python float) is carried as its
  literal spelling, its IEEE-754 value deliberately unmodelled — no
  modelled decision depends on a float's numeric value.
- Python exceptions that escape a function are `Except.error` values of the
  `Err` type; an HTTPException raised for the framework to translate into a
  response is `Err.httpError status`.
- Machine-independent data (strings, lists, Nat/Int) is used throughout;
  no overflow is involved in the modelled code.
-/

namespace App

/-- JSON values as produced by Python's json module.  Integer literals are
`num`; a number with a fraction or exponent part, and json.loads'
NaN/Infinity extensions, are `float`, carrying the literal spelling — the
IEEE-754 value is deliberately not modelled, and no modelled control-flow
decision depends on it (a float is simply never a dict and never a
string). -/
inductive Json where
  | null
  | bool (b : Bool)
  | num (n : Int)
  | float (lit : String)
  | str (s : String)
  | arr (xs : List Json)
  | obj (fields : List (String × Json))
deriving Repr

/-- Python exceptions and HTTP error conditions used by the model.
`httpError s` is fastapi's HTTPException(status_code=s); the others are
ordinary Python exceptions escaping uncaught (the framework then answers
with a 500, not with the raiser's intended status).  `floatUnmodelled`
marks the one operation whose result would require IEEE-754 semantics
(`int()` of a float); no modelled claim reaches it. -/
inductive Err where
  | httpError (status : Nat)
  | typeError
  | valueError
  | attributeError
  | badPayload
  | connectionError
  | floatUnmodelled
deriving DecidableEq, Repr

/-- Python `dict.get(k)`: the value under the first (unique, for real dicts)
matching key, `None` when the key is missing. -/
def dict_get (fields : List (String × Json)) (k : String) : Json :=
  match fields.find? (fun p => p.1 == k) with
  | some p => p.2
  | none => .null

/-- Python `dict.get(k, d)`: as `dict_get` but with explicit default. -/
def dict_getD (fields : List (String × Json)) (k : String) (d : Json) : Json :=
  match fields.find? (fun p => p.1 == k) with
  | some p => p.2
  | none => d

/-- Python truthiness of a JSON value (`if not x`).  A float's truthiness
is its IEEE value compared against 0.0 (underflow included), which the
model does not represent; `true` is used, and the only modelled use — the
`if not data_b64` check in pubsub_push — yields HTTP 400 for any
non-string `data` on either branch, so the choice is observationally
irrelevant there. -/
def pyTruthy : Json → Bool
  | .null => false
  | .bool b => b
  | .num n => n != 0
  | .float _ => true
  | .str s => !s.isEmpty
  | .arr xs => !xs.isEmpty
  | .obj fs => !fs.isEmpty

/-- Python `int(x)` on a JSON value: ints pass through, bools map to 0/1,
strings are parsed (ValueError when unparsable), lists/dicts/None raise
TypeError.  `int()` of a float truncates its IEEE-754 value, which the
model does not represent: the case is marked `floatUnmodelled`; no
modelled claim reaches it (server-signed payloads carry integer user ids,
and the fails-closed theorems cover only signature/age failures, which
never reach `int()`).  (Python also accepts some exotic string spellings
such as a leading `+` or embedded underscores; no modelled claim depends
on those.) -/
def pyInt : Json → Except Err Int
  | .num n => .ok n
  | .bool b => .ok (if b then 1 else 0)
  | .float _ => .error .floatUnmodelled
  | .str s =>
    match s.toInt? with
    | some n => .ok n
    | none => .error .valueError
  | .null => .error .typeError
  | .arr _ => .error .typeError
  | .obj _ => .error .typeError

/-! ## Session token codec (src/app/auth.py, itsdangerous) -/

/-- `SESSION_MAX_AGE_SECONDS = 60 * 60 * 24 * 7` (7 days). -/
def SESSION_MAX_AGE_SECONDS : Nat := 60 * 60 * 24 * 7

/-- A token string of itsdangerous' URLSafeTimedSerializer, represented by
the three attributes that determine what `serializer.loads` does with it:
the signed payload parsed as JSON (`none` when the signed bytes are not
valid JSON, which makes loads raise BadPayload), whether the signature
verifies under the server secret, and the token's age in seconds at
verification time.  Every combination of attributes is realised by at
least one concrete token string: an invalid-signature token by flipping a
byte of any token, a valid-signature token over an arbitrary payload by
signing it with the server secret. -/
structure Token where
  payload : Option Json
  sigValid : Bool
  age : Nat

/-- Errors raised by `serializer.loads` (itsdangerous): BadSignature (also
covering its subclass BadTimeSignature), SignatureExpired, BadPayload.
Of these, only the first two are caught by `get_user_id_from_token`. -/
inductive LoadErr where
  | badSignature
  | signatureExpired
  | badPayloadErr
deriving DecidableEq, Repr

/-- `serializer.loads(token, max_age)`: the signature is checked first
(BadSignature on mismatch), then the timestamp (SignatureExpired when the
age exceeds `max_age`), and only then is the payload deserialized
(BadPayload when the signed bytes are not valid JSON). -/
def serializer_loads (t : Token) (max_age : Nat) : Except LoadErr Json :=
  if t.sigValid = false then .error .badSignature
  else if max_age < t.age then .error .signatureExpired
  else
    match t.payload with
    | none => .error .badPayloadErr
    | some j => .ok j

/-- `create_session_token(user_id)`: `serializer.dumps({"user_id": user_id})`
— a fresh (age 0), validly signed token over the one-field payload. -/
def create_session_token (user_id : Int) : Token :=
  { payload := some (.obj [("user_id", .num user_id)]), sigValid := true, age := 0 }

/-- `get_user_id_from_token(token)`: loads with the 7-day bound, catching
only SignatureExpired and BadSignature (both become None); then
`int(data.get("user_id"))` on whatever payload was signed — which raises
AttributeError when the payload is not a dict, and TypeError/ValueError
when the `user_id` value is not convertible by `int`. -/
def get_user_id_from_token (t : Token) : Except Err (Option Int) :=
  match serializer_loads t SESSION_MAX_AGE_SECONDS with
  | .error .signatureExpired => .ok none
  | .error .badSignature => .ok none
  | .error .badPayloadErr => .error .badPayload
  | .ok data =>
    match data with
    | .obj fields => (pyInt (dict_get fields "user_id")).map some
    | _ => .error .attributeError

/-! ## Settings (src/app/config.py) and the session cookie -/

/-- The pydantic Settings object, with the source's declared fields and
defaults.  Each field is overridable per deployment environment via env
vars / .env, which the model expresses by quantifying over `Settings`
values. -/
structure Settings where
  app_name : String := "Fullstack GCP App"
  environment : String := "dev"
  secret_key : String := "change-me"
  session_cookie_name : String := "session"
  database_url : String := "postgresql+psycopg2://postgres:postgres@db:5432/app"
  redis_url : String := "redis://redis:6379/0"
  gcp_project_id : Option String := none
  gcp_region : Option String := none
  pubsub_topic : Option String := none
  cloud_run_service : Option String := none

/-- The module-level `settings = get_settings()` instance with all defaults
(used where the source reads the global rather than a parameter). -/
def settings : Settings := {}

/-- The attributes `response.set_cookie` is called with. -/
structure SetCookie where
  key : String
  value : Token
  httponly : Bool
  secure : Bool
  samesite : String
  max_age : Nat

/-- `set_session_cookie(response, token)`: the cookie attributes the source
passes to `response.set_cookie`.  The function is modelled as a function of
the Settings instance (the only deployment-configurable input): the source
reads `settings.session_cookie_name` from it, and hardcodes
`secure=False` with the comment "set True when behind HTTPS in
production". -/
def set_session_cookie (s : Settings) (token : Token) : SetCookie :=
  { key := s.session_cookie_name
    value := token
    httponly := true
    secure := false
    samesite := "lax"
    max_age := SESSION_MAX_AGE_SECONDS }

/-! ## Users and the authorization gate (src/app/models.py, src/app/auth.py) -/

/-- A `users` row joined with its role rows: `roles` is the list of names
of the Role rows related through the `user_roles` table. -/
structure User where
  id : Int
  email : String
  hashed_password : String
  is_active : Bool
  is_superuser : Bool
  roles : List String

/-- `db.get(User, user_id)`: primary-key lookup (ids are unique, so the
first match is the row). -/
def db_get_user (db : List User) (user_id : Int) : Option User :=
  db.find? (fun u => u.id == user_id)

/-- `get_current_user(request, db)`.  The cookie jar is the request's
cookies restricted to token-valued entries (`request.cookies.get(name)`).
An empty-string cookie value takes the early `if not token` return, which
is observationally identical to a bad-signature token (both yield None),
so the model needs no separate empty-string case.  Note the source's
`if not user_id`: Python treats user id 0 as falsy, so a valid token for
user id 0 also resolves to None. -/
def get_current_user (cookies : List (String × Token)) (db : List User) :
    Except Err (Option User) :=
  match cookies.find? (fun c => c.1 == settings.session_cookie_name) with
  | none => .ok none
  | some c =>
    match get_user_id_from_token c.2 with
    | .error e => .error e
    | .ok none => .ok none
    | .ok (some user_id) =>
      if user_id == 0 then .ok none
      else .ok (db_get_user db user_id)

/-- `require_authenticated_user(request, db)`: 401 when no user resolves or
the resolved user's active flag is false. -/
def require_authenticated_user (cookies : List (String × Token)) (db : List User) :
    Except Err User :=
  match get_current_user cookies db with
  | .error e => .error e
  | .ok none => .error (.httpError 401)
  | .ok (some user) =>
    if user.is_active then .ok user else .error (.httpError 401)

/-- `require_role(request, db, roles)`: superuser bypasses; otherwise 403
unless the user's role-name set intersects `roles`. -/
def require_role (cookies : List (String × Token)) (db : List User)
    (roles : List String) : Except Err User :=
  match require_authenticated_user cookies db with
  | .error e => .error e
  | .ok user =>
    if user.is_superuser then .ok user
    else if user.roles.any (fun r => roles.contains r) then .ok user
    else .error (.httpError 403)

/-! ## Password hashing (src/app/auth.py, passlib/bcrypt) -/

/-- `BCRYPT_MAX_LENGTH = 72` ("bcrypt only uses the first 72 bytes"). -/
def BCRYPT_MAX_LENGTH : Nat := 72

/-- `_truncate_for_bcrypt(password)`: `password[:72]` when
`len(password) > 72`.  Python `len` and slicing count code points
(characters), not bytes. -/
def truncate_for_bcrypt (password : String) : String :=
  if password.length ≤ BCRYPT_MAX_LENGTH then password
  else (password.toList.take BCRYPT_MAX_LENGTH).asString

/-- A bcrypt hash, modelled as an ideal salted hash: represented by the
secret it was computed from, so that verification compares secrets
(collisions ignored, as usual for an idealised hash). -/
structure BcryptHash where
  secret : String
deriving DecidableEq, Repr

/-- `pwd_context.hash(secret)` for CryptContext(schemes=["bcrypt"]).
Per the source's own docstring ("bcrypt ignores everything beyond 72
bytes; passlib raises an error instead"), hashing a secret longer than 72
UTF-8 bytes raises a ValueError instead of truncating. -/
def pwd_context_hash (secret : String) : Except Err BcryptHash :=
  if BCRYPT_MAX_LENGTH < secret.utf8ByteSize then .error .valueError
  else .ok { secret := secret }

/-- `pwd_context.verify(secret, hash)`, with the same length behaviour as
`pwd_context_hash`. -/
def pwd_context_verify (secret : String) (h : BcryptHash) : Except Err Bool :=
  if BCRYPT_MAX_LENGTH < secret.utf8ByteSize then .error .valueError
  else .ok (secret == h.secret)

/-- `hash_password(password)`. -/
def hash_password (password : String) : Except Err BcryptHash :=
  pwd_context_hash (truncate_for_bcrypt password)

/-- `verify_password(plain_password, hashed_password)`. -/
def verify_password (plain_password : String) (h : BcryptHash) : Except Err Bool :=
  pwd_context_verify (truncate_for_bcrypt plain_password) h

/-! ## Cache-aside accessor (src/app/cache.py) -/

/-- The redis store as seen by one request: either unreachable (every
command raises a connection error) or reachable with entries
`(key, stored JSON value, absolute expiry time)`.  `setex key ttl v`
stores with expiry `now + ttl`; a GET at or after the expiry time finds
nothing. -/
inductive Store where
  | unreachable
  | reachable (entries : List (String × Json × Nat))

/-- `get_redis()` never returns None: `redis.from_url` constructs a client
without connecting, so the `if client is None` branches in cache_get and
cache_set are dead code. -/
def redis_client_exists : Bool := true

/-- `cache_get(key)` at time `now`: raises on an unreachable store (there
is no exception handling in src/app/cache.py); returns None on a missing
or expired key; otherwise `json.loads` of the stored string — which maps
a stored "null" back to None, indistinguishable from a miss.  The store
holds parsed JSON values directly: `json.loads(json.dumps(v))` is the
identity on the JSON trees involved. -/
def cache_get (st : Store) (now : Nat) (key : String) : Except Err Json :=
  if redis_client_exists = false then .ok .null
  else
    match st with
    | .unreachable => .error .connectionError
    | .reachable entries =>
      match entries.find? (fun e => e.1 == key) with
      | none => .ok .null
      | some e => if now < e.2.2 then .ok e.2.1 else .ok .null

/-- `cache_set(key, value, ttl)` at time `now`: raises on an unreachable
store; otherwise `setex` stores the value with expiry `now + ttl` (the new
entry shadows any older one for the same key). -/
def cache_set (st : Store) (now : Nat) (key : String) (value : Json) (ttl : Nat) :
    Except Err Store :=
  if redis_client_exists = false then .ok st
  else
    match st with
    | .unreachable => .error .connectionError
    | .reachable entries => .ok (.reachable ((key, value, now + ttl) :: entries))

/-- Result of one invocation of a `cached`-wrapped function: the value
returned to the caller, the store afterwards, and whether the wrapped
function was invoked during this call. -/
structure CallResult where
  value : Json
  store : Store
  invoked : Bool

/-- One call of the wrapper that `cached(ttl=...)` builds around an async
function, with the cache key already built and `fnResult` the value the
wrapped function would return (the wrapped compute is effect-free for the
purposes of the modelled claims).  The wrapper returns the cached value
when `cache_get` gives something `is not None`; otherwise it invokes the
function, stores the result and returns it.  Exceptions from the redis
calls propagate: nothing in cache.py catches them. -/
def cached_call (ttl : Nat) (key : String) (fnResult : Json) (st : Store)
    (now : Nat) : Except Err CallResult :=
  match cache_get st now key with
  | .error e => .error e
  | .ok cached_value =>
    match cached_value with
    | .null =>
      match cache_set st now key fnResult ttl with
      | .error e => .error e
      | .ok st' => .ok { value := fnResult, store := st', invoked := true }
    | v => .ok { value := v, store := st, invoked := false }

/-! ## Push job handler (src/app/worker_main.py)

The handler does `base64.b64decode(data).decode("utf-8")` followed by
`json.loads`, all inside one `except Exception` that maps any failure to
HTTP 400.  The three decoding stages are embedded as executable functions
below; the composite is `decode_pubsub_data`. -/

/-- Value of a base64 alphabet character ('A'..'Z', 'a'..'z', '0'..'9',
'+', '/'). -/
def b64Val (c : Char) : Option Nat :=
  let n := c.toNat
  if 65 ≤ n ∧ n ≤ 90 then some (n - 65)
  else if 97 ≤ n ∧ n ≤ 122 then some (n - 71)
  else if 48 ≤ n ∧ n ≤ 57 then some (n + 4)
  else if n = 43 then some 62
  else if n = 47 then some 63
  else none

/-- The decoding loop of non-strict `binascii.a2b_base64` (what
`base64.b64decode` runs with the default validate=False), carrying the
loop state: position inside the current four-character quad, the bits
carried over from the previous character, and the count of padding
characters seen since the last data character.  Alphabet characters
accumulate into the quad, emitting one byte from the second character on;
other characters are discarded; a '=' once the current quad has at least
two characters — and the accumulated pads complete it — stops decoding and
returns the bytes so far (so data after the padding is ignored, e.g.
"e30=IA==" decodes to the two bytes of "e30"); a '=' earlier in a quad is
ignored.  A dangling quad at the end of input (one leftover character, or
missing padding) is an error. -/
def a2b_base64 : List Char → Nat → Nat → Nat → Option (List Nat)
  | [], quad_pos, _, _ => if quad_pos = 0 then some [] else none
  | c :: rest, quad_pos, leftchar, pads =>
    if c.toNat = 61 then
      if 2 ≤ quad_pos then
        if 4 ≤ quad_pos + (pads + 1) then some []
        else a2b_base64 rest quad_pos leftchar (pads + 1)
      else a2b_base64 rest quad_pos leftchar pads
    else
      match b64Val c with
      | none => a2b_base64 rest quad_pos leftchar pads
      | some v =>
        match quad_pos with
        | 0 => a2b_base64 rest 1 v 0
        | 1 => (a2b_base64 rest 2 (v % 16) 0).map (fun bs => (leftchar * 4 + v / 16) :: bs)
        | 2 => (a2b_base64 rest 3 (v % 4) 0).map (fun bs => (leftchar * 16 + v / 4) :: bs)
        | _ => (a2b_base64 rest 0 0 0).map (fun bs => (leftchar * 64 + v) :: bs)

/-- `base64.b64decode(s)` on a str argument: the string must be pure ASCII
(str.encode('ascii') raises otherwise), then the non-strict binascii loop
decodes it. -/
def b64decode (s : String) : Option (List Nat) :=
  if s.toList.all (fun c => c.toNat ≤ 127) then a2b_base64 s.toList 0 0 0
  else none

/-- Is `n` a Unicode scalar value (what a decoded character must be)? -/
def validScalar (n : Nat) : Bool :=
  (n < 55296 || (57343 < n ∧ n < 1114112 : Bool))

/-- `bytes.decode("utf-8")`, with fuel (the byte count bounds the number of
decoded characters): standard 1-4 byte sequences, rejecting stray or
missing continuation bytes and code points outside the scalar range. -/
def utf8DecodeAux : Nat → List Nat → Option (List Char)
  | _, [] => some []
  | 0, _ :: _ => none
  | fuel + 1, b :: rest =>
    if b < 128 then
      (utf8DecodeAux fuel rest).map (fun cs => Char.ofNat b :: cs)
    else if 192 ≤ b ∧ b < 224 then
      match rest with
      | b1 :: rest1 =>
        if 128 ≤ b1 ∧ b1 < 192 then
          let n := (b - 192) * 64 + (b1 - 128)
          if 128 ≤ n ∧ validScalar n then
            (utf8DecodeAux fuel rest1).map (fun cs => Char.ofNat n :: cs)
          else none
        else none
      | [] => none
    else if 224 ≤ b ∧ b < 240 then
      match rest with
      | b1 :: b2 :: rest2 =>
        if (128 ≤ b1 ∧ b1 < 192) ∧ (128 ≤ b2 ∧ b2 < 192) then
          let n := (b - 224) * 4096 + (b1 - 128) * 64 + (b2 - 128)
          if 2048 ≤ n ∧ validScalar n then
            (utf8DecodeAux fuel rest2).map (fun cs => Char.ofNat n :: cs)
          else none
        else none
      | _ => none
    else if 240 ≤ b ∧ b < 248 then
      match rest with
      | b1 :: b2 :: b3 :: rest3 =>
        if (128 ≤ b1 ∧ b1 < 192) ∧ (128 ≤ b2 ∧ b2 < 192) ∧ (128 ≤ b3 ∧ b3 < 192) then
          let n := (b - 240) * 262144 + (b1 - 128) * 4096 + (b2 - 128) * 64 + (b3 - 128)
          if 65536 ≤ n ∧ validScalar n then
            (utf8DecodeAux fuel rest3).map (fun cs => Char.ofNat n :: cs)
          else none
        else none
      | _ => none
    else none

/-- `bytes.decode("utf-8")`. -/
def utf8Decode (bytes : List Nat) : Option (List Char) :=
  utf8DecodeAux bytes.length bytes

/-! A recursive-descent parser for `json.loads` (default options): null,
booleans, numbers (integers exactly; fraction/exponent forms and
NaN/Infinity as `Json.float` literals), strings with the RFC 8259 escapes
including \uXXXX and surrogate pairs, arrays and objects (duplicate keys
keep the last value).  The interpreter's recursion limit (a RecursionError
on very deep nesting, caught by the push handler like any other decode
failure) is a resource bound the model does not represent, as with memory
exhaustion. -/

/-- JSON insignificant whitespace (space, tab, line feed, carriage
return). -/
def isJsonWs (c : Char) : Bool :=
  c.toNat = 32 || c.toNat = 9 || c.toNat = 10 || c.toNat = 13

/-- Skip insignificant whitespace. -/
def skipWs (cs : List Char) : List Char :=
  cs.dropWhile isJsonWs

/-- Hexadecimal digit value. -/
def hexVal (c : Char) : Option Nat :=
  let n := c.toNat
  if 48 ≤ n ∧ n ≤ 57 then some (n - 48)
  else if 97 ≤ n ∧ n ≤ 102 then some (n - 87)
  else if 65 ≤ n ∧ n ≤ 70 then some (n - 55)
  else none

/-- json.loads keeps a lone surrogate escape (e.g. \uD800 without a
matching low surrogate) as a surrogate code point inside the Python
string.  A Lean `Char` cannot hold U+D800..U+DFFF, so the model maps them
injectively into the plane-15 private-use range U+F0000..U+F07FF.  Every
modelled control-flow decision — ASCII dict-key lookups ("message",
"data", "type", "item_id", "user_id"), the "process_item" comparison, and
the pure-ASCII check of b64decode (these code points are non-ASCII, as
surrogates are) — is insensitive to the renaming. -/
def loneSurrogate (n : Nat) : Char := Char.ofNat (n - 55296 + 983040)

/-- Parse the body of a JSON string after the opening quote, returning the
characters and the input after the closing quote.  Escapes as json.loads
accepts them: the eight single-character ones of RFC 8259 and \uXXXX,
where a high-surrogate escape immediately followed by a low-surrogate
escape combines into one supplementary-plane character, and an unpaired
surrogate escape stays as a lone surrogate (see `loneSurrogate`); raw
control characters below 0x20 are rejected (strict mode, the default). -/
def parseStringBodyAux : Nat → List Char → Option (List Char × List Char)
  | 0, _ => none
  | _ + 1, [] => none
  | fuel + 1, c :: rest =>
    if c.toNat = 34 then some ([], rest)
    else if c.toNat = 92 then
      match rest with
      | e :: rest1 =>
        if e.toNat = 117 then
          match rest1 with
          | h1 :: h2 :: h3 :: h4 :: rest2 =>
            match hexVal h1, hexVal h2, hexVal h3, hexVal h4 with
            | some a, some b, some c2, some d =>
              let n := a * 4096 + b * 256 + c2 * 16 + d
              if 55296 ≤ n ∧ n ≤ 56319 then
                match rest2 with
                | b1 :: u2 :: g1 :: g2 :: g3 :: g4 :: rest3 =>
                  if b1.toNat = 92 ∧ u2.toNat = 117 then
                    match hexVal g1, hexVal g2, hexVal g3, hexVal g4 with
                    | some a2, some b2, some c3, some d2 =>
                      let m := a2 * 4096 + b2 * 256 + c3 * 16 + d2
                      if 56320 ≤ m ∧ m ≤ 57343 then
                        match parseStringBodyAux fuel rest3 with
                        | some (cs, r) =>
                          some (Char.ofNat (65536 + (n - 55296) * 1024 + (m - 56320)) :: cs, r)
                        | none => none
                      else
                        match parseStringBodyAux fuel rest2 with
                        | some (cs, r) => some (loneSurrogate n :: cs, r)
                        | none => none
                    | _, _, _, _ =>
                      match parseStringBodyAux fuel rest2 with
                      | some (cs, r) => some (loneSurrogate n :: cs, r)
                      | none => none
                  else
                    match parseStringBodyAux fuel rest2 with
                    | some (cs, r) => some (loneSurrogate n :: cs, r)
                    | none => none
                | _ =>
                  match parseStringBodyAux fuel rest2 with
                  | some (cs, r) => some (loneSurrogate n :: cs, r)
                  | none => none
              else if 56320 ≤ n ∧ n ≤ 57343 then
                match parseStringBodyAux fuel rest2 with
                | some (cs, r) => some (loneSurrogate n :: cs, r)
                | none => none
              else
                match parseStringBodyAux fuel rest2 with
                | some (cs, r) => some (Char.ofNat n :: cs, r)
                | none => none
            | _, _, _, _ => none
          | _ => none
        else
          let esc : Option Char :=
            if e.toNat = 34 then some (Char.ofNat 34)
            else if e.toNat = 92 then some (Char.ofNat 92)
            else if e.toNat = 47 then some (Char.ofNat 47)
            else if e.toNat = 98 then some (Char.ofNat 8)
            else if e.toNat = 102 then some (Char.ofNat 12)
            else if e.toNat = 110 then some (Char.ofNat 10)
            else if e.toNat = 114 then some (Char.ofNat 13)
            else if e.toNat = 116 then some (Char.ofNat 9)
            else none
          match esc with
          | some ec =>
            match parseStringBodyAux fuel rest1 with
            | some (cs, rest2) => some (ec :: cs, rest2)
            | none => none
          | none => none
      | [] => none
    else if c.toNat < 32 then none
    else
      match parseStringBodyAux fuel rest with
      | some (cs, rest1) => some (c :: cs, rest1)
      | none => none

/-- `parseStringBodyAux` with enough fuel: every recursive step consumes
at least one input character, so the input length bounds the recursion
depth. -/
def parseStringBody (cs : List Char) : Option (List Char × List Char) :=
  parseStringBodyAux cs.length cs

/-- Parse a run of decimal digits into its value (most significant first),
returning value, digit count and the rest. -/
def parseDigits : List Char → Nat → Nat → Nat × Nat × List Char
  | [], acc, cnt => (acc, cnt, [])
  | c :: rest, acc, cnt =>
    if 48 ≤ c.toNat ∧ c.toNat ≤ 57 then
      parseDigits rest (acc * 10 + (c.toNat - 48)) (cnt + 1)
    else (acc, cnt, c :: rest)

/-- The integer part of a JSON number: a digit run with the leading-zero
restriction (json rejects 01, 00.5 and the like). -/
def parseIntPart (cs : List Char) : Option (Nat × List Char) :=
  match cs with
  | d :: _ =>
    if 48 ≤ d.toNat ∧ d.toNat ≤ 57 then
      match parseDigits cs 0 0 with
      | (v, cnt, rest) => if 1 < cnt ∧ d.toNat = 48 then none else some (v, rest)
    else none
  | [] => none

/-- Optional fraction and exponent of a JSON number; returns whether either
was present (which makes the number a Python float).  A bare dot or a
digitless exponent is a parse failure here; json.loads reaches the same
failure differently (its number regex stops early and the stray characters
then fail as delimiters or extra data), so the observable outcome
agrees. -/
def parseFracExp (cs : List Char) : Option (Bool × List Char) :=
  let fracStep : Option (Bool × List Char) :=
    match cs with
    | c :: rest =>
      if c.toNat = 46 then
        match parseDigits rest 0 0 with
        | (_, cnt, rest1) => if cnt = 0 then none else some (true, rest1)
      else some (false, cs)
    | [] => some (false, [])
  match fracStep with
  | none => none
  | some (hasFrac, rest1) =>
    match rest1 with
    | c :: rest2 =>
      if c.toNat = 101 ∨ c.toNat = 69 then
        let rest3 :=
          match rest2 with
          | s1 :: r => if s1.toNat = 43 ∨ s1.toNat = 45 then r else rest2
          | [] => rest2
        match parseDigits rest3 0 0 with
        | (_, cnt, rest4) => if cnt = 0 then none else some (true, rest4)
      else some (hasFrac, rest1)
    | [] => some (hasFrac, rest1)

/-- A JSON number starting with '-' or a digit: integer literals become
`Json.num`; literals with a fraction or exponent part become `Json.float`
carrying the literal spelling; also the -Infinity extension json.loads
accepts by default. -/
def parseNumber (cs : List Char) : Option (Json × List Char) :=
  match cs with
  | c :: rest =>
    if c.toNat = 45 then
      match rest with
      | i :: rtl =>
        if i.toNat = 73 then
          match rtl with
          | n1 :: f :: i1 :: n2 :: i2 :: t :: y :: rest1 =>
            if n1.toNat = 110 ∧ f.toNat = 102 ∧ i1.toNat = 105 ∧ n2.toNat = 110 ∧
                i2.toNat = 105 ∧ t.toNat = 116 ∧ y.toNat = 121 then
              some (.float "-Infinity", rest1)
            else none
          | _ => none
        else
          match parseIntPart rest with
          | some (v, rest1) =>
            match parseFracExp rest1 with
            | some (true, rest2) =>
              some (.float ((cs.take (cs.length - rest2.length)).asString), rest2)
            | some (false, rest2) => some (.num (-(v : Int)), rest2)
            | none => none
          | none => none
      | [] => none
    else
      match parseIntPart cs with
      | some (v, rest1) =>
        match parseFracExp rest1 with
        | some (true, rest2) =>
          some (.float ((cs.take (cs.length - rest2.length)).asString), rest2)
        | some (false, rest2) => some (.num ((v : Int)), rest2)
        | none => none
      | none => none
  | [] => none

/-- Insert a parsed object member as `dict` does: replace the value of an
existing key (JSON objects with duplicate keys keep the last value),
otherwise append. -/
def dictInsert (fields : List (String × Json)) (k : String) (v : Json) :
    List (String × Json) :=
  if fields.any (fun p => p.1 == k) then
    fields.map (fun p => if p.1 == k then (k, v) else p)
  else fields ++ [(k, v)]

mutual

/-- Parse one JSON value; fuel bounds the nesting/element count. -/
def parseValue : Nat → List Char → Option (Json × List Char)
  | 0, _ => none
  | fuel + 1, cs =>
    match skipWs cs with
    | [] => none
    | c :: rest =>
      if c.toNat = 110 then
        match rest with
        | u :: l1 :: l2 :: rest1 =>
          if u.toNat = 117 ∧ l1.toNat = 108 ∧ l2.toNat = 108 then
            some (.null, rest1)
          else none
        | _ => none
      else if c.toNat = 116 then
        match rest with
        | r :: u :: e :: rest1 =>
          if r.toNat = 114 ∧ u.toNat = 117 ∧ e.toNat = 101 then
            some (.bool true, rest1)
          else none
        | _ => none
      else if c.toNat = 102 then
        match rest with
        | a :: l :: s :: e :: rest1 =>
          if a.toNat = 97 ∧ l.toNat = 108 ∧ s.toNat = 115 ∧ e.toNat = 101 then
            some (.bool false, rest1)
          else none
        | _ => none
      else if c.toNat = 34 then
        match parseStringBody rest with
        | some (body, rest1) => some (.str body.asString, rest1)
        | none => none
      else if c.toNat = 91 then
        match skipWs rest with
        | d :: rest1 =>
          if d.toNat = 93 then some (.arr [], rest1)
          else
            match parseElems fuel (skipWs rest) with
            | some (xs, rest2) => some (.arr xs, rest2)
            | none => none
        | [] => none
      else if c.toNat = 123 then
        match skipWs rest with
        | d :: rest1 =>
          if d.toNat = 125 then some (.obj [], rest1)
          else
            match parseMembers fuel (skipWs rest) [] with
            | some (fs, rest2) => some (.obj fs, rest2)
            | none => none
        | [] => none
      else if c.toNat = 78 then
        match rest with
        | a1 :: n2 :: rest1 =>
          if a1.toNat = 97 ∧ n2.toNat = 78 then some (.float "NaN", rest1) else none
        | _ => none
      else if c.toNat = 73 then
        match rest with
        | n1 :: f :: i1 :: n2 :: i2 :: t :: y :: rest1 =>
          if n1.toNat = 110 ∧ f.toNat = 102 ∧ i1.toNat = 105 ∧ n2.toNat = 110 ∧
              i2.toNat = 105 ∧ t.toNat = 116 ∧ y.toNat = 121 then
            some (.float "Infinity", rest1)
          else none
        | _ => none
      else if c.toNat = 45 ∨ (48 ≤ c.toNat ∧ c.toNat ≤ 57) then
        parseNumber (c :: rest)
      else none

/-- Parse comma-separated array elements up to the closing bracket. -/
def parseElems : Nat → List Char → Option (List Json × List Char)
  | 0, _ => none
  | fuel + 1, cs =>
    match parseValue fuel cs with
    | some (v, rest) =>
      match skipWs rest with
      | d :: rest1 =>
        if d.toNat = 44 then
          match parseElems fuel rest1 with
          | some (xs, rest2) => some (v :: xs, rest2)
          | none => none
        else if d.toNat = 93 then some ([v], rest1)
        else none
      | [] => none
    | none => none

/-- Parse comma-separated object members up to the closing brace,
accumulating into `acc` with dict-insert semantics. -/
def parseMembers : Nat → List Char → List (String × Json) →
    Option (List (String × Json) × List Char)
  | 0, _, _ => none
  | fuel + 1, cs, acc =>
    match skipWs cs with
    | q :: rest =>
      if q.toNat = 34 then
        match parseStringBody rest with
        | some (kcs, rest1) =>
          match skipWs rest1 with
          | colon :: rest2 =>
            if colon.toNat = 58 then
              match parseValue fuel rest2 with
              | some (v, rest3) =>
                let acc1 := dictInsert acc kcs.asString v
                match skipWs rest3 with
                | d :: rest4 =>
                  if d.toNat = 44 then parseMembers fuel rest4 acc1
                  else if d.toNat = 125 then some (acc1, rest4)
                  else none
                | [] => none
              | none => none
            else none
          | [] => none
        | none => none
      else none
    | [] => none

end

/-- `json.loads(s)`: parse one value and require only whitespace after
it. -/
def jsonLoads (s : String) : Option Json :=
  match parseValue (s.length + 1) s.toList with
  | some (v, rest) => if (skipWs rest).isEmpty then some v else none
  | none => none

/-- The `try` block of pubsub_push:
`base64.b64decode(data_b64).decode("utf-8")` then `json.loads`; `none`
means some stage raised (all exceptions are caught and mapped to 400).
A non-string `data` raises inside the block (b64decode rejects it), so it
also decodes to `none`. -/
def decode_pubsub_data : Json → Option Json
  | .str s =>
    match b64decode s with
    | none => none
    | some bytes =>
      match utf8Decode bytes with
      | none => none
      | some cs => jsonLoads cs.asString
  | _ => none

/-- Outcome of a successful (HTTP 200, body `{"status": "ok"}`) push
request: `handled` is the payload passed to `handle_process_item` when the
dispatch invoked it, `none` when no handler ran. -/
structure PushOutcome where
  handled : Option Json
deriving Repr

/-- `pubsub_push(request)` on a request whose JSON body is `body`:
`body.get("message", {})` then `message.get("data")` (AttributeError when
the receiver is not a dict), the `if not data_b64` 400, the decode 400,
then dispatch on `payload.get("type") == "process_item"` — where
`payload.get` raises AttributeError on a non-dict payload, uncaught. -/
def pubsub_push (body : Json) : Except Err PushOutcome :=
  match body with
  | .obj bodyFields =>
    match dict_getD bodyFields "message" (.obj []) with
    | .obj msgFields =>
      let data_b64 := dict_get msgFields "data"
      if pyTruthy data_b64 = false then .error (.httpError 400)
      else
        match decode_pubsub_data data_b64 with
        | none => .error (.httpError 400)
        | some payload =>
          match payload with
          | .obj pFields =>
            match dict_get pFields "type" with
            | .str t =>
              if t == "process_item" then .ok { handled := some (.obj pFields) }
              else .ok { handled := none }
            | _ => .ok { handled := none }
          | _ => .error .attributeError
    | _ => .error .attributeError
  | _ => .error .attributeError

/-! ## Theorems about the claims -/

/-- C9: for every user id, verifying a freshly issued session token within
the max-age bound returns that id:
`get_user_id_from_token(create_session_token(uid)) = uid` immediately
after issuance. -/
theorem token_roundtrip (user_id : Int) :
    get_user_id_from_token (create_session_token user_id) = .ok (some user_id) := rfl

/-- C1 counterexample: a token whose signature is valid but whose signed
payload is the JSON object `{}` (constructible by anyone holding the
signing secret — and the claim quantifies over every token string) makes
`get_user_id_from_token` raise an uncaught TypeError (`int(None)`) instead
of returning None: verification does not fail closed on every token. -/
theorem get_user_id_raises_on_signed_empty_payload :
    get_user_id_from_token { payload := some (.obj []), sigValid := true, age := 0 } =
      .error .typeError := rfl

/-- C1 amended: verification fails closed — returning None, with no
exception — for every token whose signature does not verify and for every
token older than the 7-day bound; only a validly signed token whose
payload is not a JSON object carrying an int-convertible `user_id` escapes
as an uncaught exception. -/
theorem get_user_id_fails_closed :
    (∀ t : Token, t.sigValid = false → get_user_id_from_token t = .ok none) ∧
    (∀ t : Token, SESSION_MAX_AGE_SECONDS < t.age → get_user_id_from_token t = .ok none) := by
  constructor
  · intro t h
    simp [get_user_id_from_token, serializer_loads, h]
  · intro t h
    by_cases hs : t.sigValid = false
    · simp [get_user_id_from_token, serializer_loads, hs]
    · simp [get_user_id_from_token, serializer_loads, hs, h]

/-- C1 witness: a bad-signature token and an expired token both verify to
None. -/
theorem get_user_id_fails_closed_witness :
    get_user_id_from_token
        { payload := some (.obj [("user_id", .num 1)]), sigValid := false, age := 0 } = .ok none ∧
    get_user_id_from_token
        { payload := some (.obj [("user_id", .num 1)]), sigValid := true, age := 604801 } = .ok none :=
  ⟨get_user_id_fails_closed.1 _ rfl, get_user_id_fails_closed.2 _ (by decide)⟩

/-- C3 counterexample: no Settings value makes `set_session_cookie` emit a
Secure cookie — the attribute is not configurable per deployment
environment. -/
theorem secure_flag_not_configurable :
    ¬ ∃ (s : Settings) (t : Token), (set_session_cookie s t).secure = true := by
  rintro ⟨s, t, h⟩
  simp [set_session_cookie] at h

/-- C3 amended: the session cookie's Secure attribute is hardcoded off for
every configuration; flipping it requires a code change (the source
comment says "set True when behind HTTPS in production"). -/
theorem secure_flag_hardcoded_off (s : Settings) (t : Token) :
    (set_session_cookie s t).secure = false := rfl

/-- C5 (code bug): a password of 40 copies of 'é' is 80 UTF-8 bytes but
only 40 characters, so `_truncate_for_bcrypt` returns it unchanged —
beyond bcrypt's 72-byte limit — and hashing raises instead of truncating,
contradicting the claim and the function's own docstring. -/
theorem truncate_misses_byte_limit :
    (String.mk (List.replicate 40 (Char.ofNat 233))).utf8ByteSize = 80 ∧
    truncate_for_bcrypt (String.mk (List.replicate 40 (Char.ofNat 233))) =
      String.mk (List.replicate 40 (Char.ofNat 233)) ∧
    hash_password (String.mk (List.replicate 40 (Char.ofNat 233))) = .error .valueError :=
  ⟨rfl, rfl, rfl⟩

/-- C6 counterexample: with the backing store unreachable, a wrapped call
propagates the connection error instead of invoking the compute function
and returning its result — the failure is surfaced to the caller. -/
theorem unreachable_store_fails_request :
    cached_call 30 "k" (.num 1) .unreachable 0 = .error .connectionError := rfl

/-- C6 amended: when the backing store is unreachable, every wrapped call
fails with the store's connection error (nothing in cache.py catches it);
the always-miss degrade exists only in the dead `client is None`
branches, which `get_redis` never takes. -/
theorem unreachable_store_error_propagates (ttl : Nat) (key : String)
    (fnResult : Json) (now : Nat) :
    cached_call ttl key fnResult .unreachable now = .error .connectionError := rfl

/-- C2: for every authenticated user and required role list, require_role
returns the user when the superuser flag is set (whatever the role sets),
returns the user when the user's role names intersect the required list
(one shared role suffices), and otherwise fails with Forbidden (403). -/
theorem require_role_intersection (cookies : List (String × Token)) (db : List User)
    (roles : List String) (user : User)
    (hauth : require_authenticated_user cookies db = .ok user) :
    (user.is_superuser = true → require_role cookies db roles = .ok user) ∧
    ((∃ r, r ∈ user.roles ∧ r ∈ roles) → require_role cookies db roles = .ok user) ∧
    (user.is_superuser = false → (¬ ∃ r, r ∈ user.roles ∧ r ∈ roles) →
      require_role cookies db roles = .error (.httpError 403)) := by
  refine ⟨fun hsu => ?_, fun hint => ?_, fun hsu hno => ?_⟩
  · simp [require_role, hauth, hsu]
  · by_cases hsu : user.is_superuser
    · simp [require_role, hauth, hsu]
    · simp [require_role, hauth, hsu]
      exact hint
  · simp [require_role, hauth, hsu]
    intro x hx hxr
    exact hno ⟨x, hx, hxr⟩

/-- The demonstration users for the require_role witness. -/
def editorDemoUser : User :=
  { id := 1, email := "a@example.com", hashed_password := "h", is_active := true,
    is_superuser := false, roles := ["editor"] }

/-- Superuser with an empty role set. -/
def superDemoUser : User :=
  { id := 2, email := "b@example.com", hashed_password := "h", is_active := true,
    is_superuser := true, roles := [] }

/-- Non-superuser whose roles are disjoint from the required set. -/
def viewerDemoUser : User :=
  { id := 3, email := "c@example.com", hashed_password := "h", is_active := true,
    is_superuser := false, roles := ["viewer"] }

/-- C2 witness: a non-superuser with exactly one shared role is granted; a
superuser with an empty role set is granted; a non-superuser with
disjoint roles gets 403. -/
theorem require_role_intersection_witness :
    require_role [("session", create_session_token 1)] [editorDemoUser] ["admin", "editor"] =
      .ok editorDemoUser ∧
    require_role [("session", create_session_token 2)] [superDemoUser] ["admin"] =
      .ok superDemoUser ∧
    require_role [("session", create_session_token 3)] [viewerDemoUser] ["admin"] =
      .error (.httpError 403) := by
  refine ⟨(require_role_intersection [("session", create_session_token 1)] [editorDemoUser]
            ["admin", "editor"] editorDemoUser rfl).2.1 ⟨"editor", by simp [editorDemoUser], by simp⟩,
          (require_role_intersection [("session", create_session_token 2)] [superDemoUser]
            ["admin"] superDemoUser rfl).1 rfl,
          (require_role_intersection [("session", create_session_token 3)] [viewerDemoUser]
            ["admin"] viewerDemoUser rfl).2.2 rfl ?_⟩
  rintro ⟨r, hr, hrr⟩
  simp [viewerDemoUser] at hr
  subst hr
  simp at hrr

/-- The inactive demonstration user for claim C4. -/
def inactiveDemoUser : User :=
  { id := 1, email := "a@example.com", hashed_password := "h",
    is_active := false, is_superuser := false, roles := [] }

/-- C4 counterexample: with a valid fresh token for user 1 and a storage
row for user 1 whose active flag is false, `get_current_user` returns that
user — not absent.  (The active flag is only enforced later, in
`require_authenticated_user`.) -/
theorem inactive_user_not_absent :
    get_current_user [("session", create_session_token 1)] [inactiveDemoUser] =
      .ok (some inactiveDemoUser) ∧
    inactiveDemoUser.is_active = false :=
  ⟨rfl, rfl⟩

/-- C4 amended: `get_current_user` returns absent when the cookie is
missing, when the token's signature is invalid or the token is expired, or
when there is no row with the token's user id; an existing row whose
active flag is false is returned as-is, and it is
`require_authenticated_user` that rejects it (and the absent case) with
401. -/
theorem resolver_absent_cases :
    (∀ (cookies : List (String × Token)) (db : List User),
      cookies.find? (fun c => c.1 == settings.session_cookie_name) = none →
      get_current_user cookies db = .ok none) ∧
    (∀ (cookies : List (String × Token)) (db : List User) (c : String × Token),
      cookies.find? (fun c => c.1 == settings.session_cookie_name) = some c →
      c.2.sigValid = false ∨ SESSION_MAX_AGE_SECONDS < c.2.age →
      get_current_user cookies db = .ok none) ∧
    (∀ (db : List User) (user_id : Int),
      db_get_user db user_id = none →
      get_current_user [(settings.session_cookie_name, create_session_token user_id)] db =
        .ok none) ∧
    (∀ (cookies : List (String × Token)) (db : List User) (u : User),
      get_current_user cookies db = .ok (some u) → u.is_active = false →
      require_authenticated_user cookies db = .error (.httpError 401)) := by
  refine ⟨fun cookies db h => ?_, fun cookies db c hc hbad => ?_,
          fun db user_id h => ?_, fun cookies db u hres hact => ?_⟩
  · simp [get_current_user, h]
  · have : get_user_id_from_token c.2 = .ok none := by
      rcases hbad with hb | hb
      · exact get_user_id_fails_closed.1 _ hb
      · exact get_user_id_fails_closed.2 _ hb
    simp [get_current_user, hc, this]
  · by_cases h0 : user_id = 0
    · subst h0
      simp [get_current_user, token_roundtrip]
    · have hbeq : (user_id == 0) = false := by
        simpa using h0
      simp [get_current_user, token_roundtrip, hbeq, h]
  · simp [require_authenticated_user, hres, hact]

/-- C4 witness: concrete instances of each amended case — empty cookie
jar, bad-signature token, valid token with no matching row, and the
inactive row rejected with 401. -/
theorem resolver_absent_cases_witness :
    get_current_user [] [inactiveDemoUser] = .ok none ∧
    get_current_user
        [("session", { payload := some (.obj [("user_id", .num 1)]), sigValid := false, age := 0 })]
        [inactiveDemoUser] = .ok none ∧
    get_current_user [("session", create_session_token 5)] [inactiveDemoUser] = .ok none ∧
    require_authenticated_user [("session", create_session_token 1)] [inactiveDemoUser] =
      .error (.httpError 401) :=
  ⟨resolver_absent_cases.1 [] _ rfl,
   resolver_absent_cases.2.1 _ _ _ rfl (Or.inl rfl),
   resolver_absent_cases.2.2.1 [inactiveDemoUser] 5 rfl,
   resolver_absent_cases.2.2.2 _ _ inactiveDemoUser rfl rfl⟩

/-- C7 counterexample: a compute function returning None (JSON null) is
re-invoked by the second call even one second later, well within
ttl = 30 — the stored null is read back as None and treated as a miss. -/
theorem null_result_recomputed_within_ttl :
    cached_call 30 "k" .null (.reachable []) 0 =
      .ok { value := .null, store := .reachable [("k", .null, 30)], invoked := true } ∧
    cached_call 30 "k" .null (.reachable [("k", .null, 30)]) 1 =
      .ok { value := .null,
            store := .reachable [("k", .null, 31), ("k", .null, 30)], invoked := true } :=
  ⟨rfl, rfl⟩

/-- C7 amended: provided the computed value is not None (JSON null), a
get-or-compute call that misses invokes the compute function, stores the
result with expiry `now + ttl` and returns it; a second call on the same
key within the ttl does not invoke its compute function and returns the
identical stored value. -/
theorem cache_aside_roundtrip (ttl : Nat) (key : String) (fnResult fnResult2 : Json)
    (entries : List (String × Json × Nat)) (now₁ now₂ : Nat)
    (hmiss : cache_get (.reachable entries) now₁ key = .ok .null)
    (hnn : fnResult ≠ .null)
    (hwithin : now₂ < now₁ + ttl) :
    cached_call ttl key fnResult (.reachable entries) now₁ =
      .ok { value := fnResult,
            store := .reachable ((key, fnResult, now₁ + ttl) :: entries),
            invoked := true } ∧
    cached_call ttl key fnResult2 (.reachable ((key, fnResult, now₁ + ttl) :: entries)) now₂ =
      .ok { value := fnResult,
            store := .reachable ((key, fnResult, now₁ + ttl) :: entries),
            invoked := false } := by
  constructor
  · unfold cached_call
    rw [hmiss]
    rfl
  · have hf : ((key, fnResult, now₁ + ttl) :: entries).find? (fun e => e.1 == key) =
        some (key, fnResult, now₁ + ttl) :=
      List.find?_cons_of_pos _ (by simp)
    have hget : cache_get (.reachable ((key, fnResult, now₁ + ttl) :: entries)) now₂ key =
        .ok fnResult := by
      simp only [cache_get, redis_client_exists, hf]
      rw [if_neg (by simp), if_pos hwithin]
    unfold cached_call
    rw [hget]
    cases fnResult with
    | null => exact absurd rfl hnn
    | bool b => rfl
    | num n => rfl
    | float lit => rfl
    | str s => rfl
    | arr xs => rfl
    | obj fs => rfl

/-- C7 witness: on key "k" with ttl 30, the first call at time 0 computes
5, stores it with expiry 30 and returns it; the second call at time 10
returns the stored 5 without invoking its compute function (which would
have returned 9). -/
theorem cache_aside_roundtrip_witness :
    cached_call 30 "k" (.num 5) (.reachable []) 0 =
      .ok { value := .num 5, store := .reachable [("k", .num 5, 30)], invoked := true } ∧
    cached_call 30 "k" (.num 9) (.reachable [("k", .num 5, 30)]) 10 =
      .ok { value := .num 5, store := .reachable [("k", .num 5, 30)], invoked := false } := by
  have h := cache_aside_roundtrip 30 "k" (.num 5) (.num 9) [] 0 10 rfl
    (fun e => Json.noConfusion e) (by decide)
  exact ⟨h.1, h.2⟩

/-- C10: when every stored value under the key is null — as is the case
once a null compute result has been cached — a get-or-compute call whose
compute function returns None always treats the lookup as a miss, invokes
the function again (even within the ttl), and leaves the store again
holding only nulls for the key, so the next call repeats this. -/
theorem null_values_never_cached (ttl now : Nat) (key : String)
    (entries : List (String × Json × Nat))
    (h : ∀ e ∈ entries, e.1 = key → e.2.1 = Json.null) :
    cached_call ttl key .null (.reachable entries) now =
      .ok { value := .null, store := .reachable ((key, .null, now + ttl) :: entries),
            invoked := true } ∧
    (∀ e ∈ ((key, Json.null, now + ttl) :: entries), e.1 = key → e.2.1 = Json.null) := by
  have hget : cache_get (.reachable entries) now key = .ok .null := by
    simp only [cache_get, redis_client_exists]
    rw [if_neg (by simp)]
    cases hf : entries.find? (fun e => e.1 == key) with
    | none => rfl
    | some e =>
      have hmem := List.mem_of_find?_eq_some hf
      have hkey : e.1 = key := by simpa using List.find?_some hf
      have hnull := h e hmem hkey
      show (if now < e.2.2 then (Except.ok e.2.1 : Except Err Json) else .ok .null) = .ok .null
      rw [hnull]
      split <;> rfl
  constructor
  · unfold cached_call
    rw [hget]
    rfl
  · intro e he hk
    rcases List.mem_cons.mp he with he1 | he2
    · subst he1; rfl
    · exact h e he2 hk

/-- C10 witness: with a live (expiry 100, call at time 1, so within ttl)
stored null under "k", the call still invokes the compute function. -/
theorem null_values_never_cached_witness :
    cached_call 30 "k" .null (.reachable [("k", .null, 100)]) 1 =
      .ok { value := .null, store := .reachable [("k", .null, 31), ("k", .null, 100)],
            invoked := true } :=
  (null_values_never_cached 30 1 "k" [("k", .null, 100)]
    (by intro e he hk; simp at he; subst he; rfl)).1

/-- Decoding an empty data string fails (json.loads of "" raises). -/
theorem decode_pubsub_data_empty : decode_pubsub_data (.str "") = none := rfl

/-- C8 counterexample: an envelope whose data decodes to the JSON array
`[]` is not rejected by the decode step, yet the handler does not return a
success acknowledgment: `payload.get("type")` raises an uncaught
AttributeError (an HTTP 500), contradicting "in all non-rejected cases it
returns a success acknowledgment". -/
theorem push_nonobject_payload_uncaught :
    pubsub_push (.obj [("message", .obj [("data", .str "W10=")])]) =
      .error .attributeError := rfl

/-- C8 amended: the push handler returns 400 when `data` is absent/falsy
and when base64/JSON decoding of `data` fails; for a decoded payload that
is a JSON object it invokes the process_item handler with the payload when
`type` is "process_item", invokes no handler for any other `type`, and
returns success in both cases; a decoded payload that is not a JSON object
instead escapes as an uncaught exception. -/
theorem push_handler_dispatch :
    (∀ (bodyFields msgFields : List (String × Json)),
      dict_getD bodyFields "message" (.obj []) = .obj msgFields →
      pyTruthy (dict_get msgFields "data") = false →
      pubsub_push (.obj bodyFields) = .error (.httpError 400)) ∧
    (∀ (bodyFields msgFields : List (String × Json)) (s : String),
      dict_getD bodyFields "message" (.obj []) = .obj msgFields →
      dict_get msgFields "data" = .str s →
      decode_pubsub_data (.str s) = none →
      pubsub_push (.obj bodyFields) = .error (.httpError 400)) ∧
    (∀ (bodyFields msgFields pFields : List (String × Json)) (s : String),
      dict_getD bodyFields "message" (.obj []) = .obj msgFields →
      dict_get msgFields "data" = .str s →
      decode_pubsub_data (.str s) = some (.obj pFields) →
      dict_get pFields "type" = .str "process_item" →
      pubsub_push (.obj bodyFields) = .ok { handled := some (.obj pFields) }) ∧
    (∀ (bodyFields msgFields pFields : List (String × Json)) (s : String),
      dict_getD bodyFields "message" (.obj []) = .obj msgFields →
      dict_get msgFields "data" = .str s →
      decode_pubsub_data (.str s) = some (.obj pFields) →
      dict_get pFields "type" ≠ .str "process_item" →
      pubsub_push (.obj bodyFields) = .ok { handled := none }) := by
  have truthyOfDecode : ∀ (s : String) (p : Json),
      decode_pubsub_data (.str s) = some p → pyTruthy (.str s) = true := by
    intro s p h3
    have hs : s ≠ "" := by
      intro e
      subst e
      rw [decode_pubsub_data_empty] at h3
      cases h3
    have hne : s.isEmpty = false :=
      Bool.eq_false_iff.mpr fun hemp => hs ((String.isEmpty_iff s).mp hemp)
    simp [pyTruthy, hne]
  refine ⟨fun bf mf h1 h2 => ?_, fun bf mf s h1 h2 h3 => ?_,
          fun bf mf pf s h1 h2 h3 h4 => ?_, fun bf mf pf s h1 h2 h3 h4 => ?_⟩
  · simp [pubsub_push, h1, h2]
  · by_cases ht : pyTruthy (dict_get mf "data") = false
    · simp [pubsub_push, h1, ht]
    · simp [pubsub_push, h1, h2, h3, ht]
  · have ht := truthyOfDecode s (.obj pf) h3
    simp [pubsub_push, h1, h2, h3, ht, h4]
  · have ht := truthyOfDecode s (.obj pf) h3
    cases hty : dict_get pf "type" with
    | str t =>
      have htne : (t == "process_item") = false := by
        rw [hty] at h4
        refine beq_eq_false_iff_ne.mpr fun e => h4 ?_
        rw [e]
      simp [pubsub_push, h1, h2, h3, ht, hty, htne]
    | null => simp [pubsub_push, h1, h2, h3, ht, hty]
    | bool b => simp [pubsub_push, h1, h2, h3, ht, hty]
    | num n => simp [pubsub_push, h1, h2, h3, ht, hty]
    | float lit => simp [pubsub_push, h1, h2, h3, ht, hty]
    | arr xs => simp [pubsub_push, h1, h2, h3, ht, hty]
    | obj fs => simp [pubsub_push, h1, h2, h3, ht, hty]

/-- C8 witness: the spec's four concrete envelopes — missing data → 400;
base64 of "not-json" → 400; base64 of a process_item payload with
item_id 7 → success with the handler invoked on that payload; base64 of an
unknown-type payload → success without invoking any handler. -/
theorem push_handler_dispatch_witness :
    pubsub_push (.obj [("message", .obj [])]) = .error (.httpError 400) ∧
    pubsub_push (.obj [("message", .obj [("data", .str "bm90LWpzb24=")])]) =
      .error (.httpError 400) ∧
    pubsub_push (.obj [("message",
        .obj [("data", .str "eyJ0eXBlIjoicHJvY2Vzc19pdGVtIiwiaXRlbV9pZCI6N30=")])]) =
      .ok { handled := some (.obj [("type", .str "process_item"), ("item_id", .num 7)]) } ∧
    pubsub_push (.obj [("message", .obj [("data", .str "eyJ0eXBlIjoib3RoZXIifQ==")])]) =
      .ok { handled := none } :=
  ⟨push_handler_dispatch.1 [("message", .obj [])] [] rfl rfl,
   push_handler_dispatch.2.1 [("message", .obj [("data", .str "bm90LWpzb24=")])]
     [("data", .str "bm90LWpzb24=")] "bm90LWpzb24=" rfl rfl rfl,
   push_handler_dispatch.2.2.1
     [("message", .obj [("data", .str "eyJ0eXBlIjoicHJvY2Vzc19pdGVtIiwiaXRlbV9pZCI6N30=")])]
     [("data", .str "eyJ0eXBlIjoicHJvY2Vzc19pdGVtIiwiaXRlbV9pZCI6N30=")]
     [("type", .str "process_item"), ("item_id", .num 7)]
     "eyJ0eXBlIjoicHJvY2Vzc19pdGVtIiwiaXRlbV9pZCI6N30=" rfl rfl rfl rfl,
   push_handler_dispatch.2.2.2
     [("message", .obj [("data", .str "eyJ0eXBlIjoib3RoZXIifQ==")])]
     [("data", .str "eyJ0eXBlIjoib3RoZXIifQ==")]
     [("type", .str "other")] "eyJ0eXBlIjoib3RoZXIifQ==" rfl rfl rfl
     (by
       intro h
       rw [show dict_get [("type", Json.str "other")] "type" = Json.str "other" from rfl] at h
       injection h with h2
       exact absurd h2 (by decide))⟩

end App
